import Mathlib

/-!
Shallow embedding of two components of the dagster repository:

* `dagster/core/snap/dep_snapshot.py` — the dependency-structure snapshot
  data model, the builder `build_dep_structure_snapshot_from_icontains_solids`,
  and `DependencyStructureSnapshotIndex` with its accessors.
* `dagster/core/storage/schedules/sql_schedule_storage.py` — the SQL-backed
  schedule storage operations, with the schedule and tick tables modelled as
  lists of rows in insertion order.

Python exceptions are modelled as explicit error values (`Except`); machine
behaviour such as an unbound local variable is made explicit as an error
constructor.  External collaborators that are not part of the sampled source
(the `check` module, the serialization codec, the SQL schema constraints and
the `dependency_structure` capability of a live graph) are modelled from the
spec; each such definition carries a doc comment saying so.
-/

/-! ## Dependency structure snapshot: data model (from dep_snapshot.py) -/

/-- `OutputHandleSnap(solid_name, output_name)`: identifies one output port of
one solid, from dep_snapshot.py. -/
structure OutputHandleSnap where
  solid_name : String
  output_name : String
deriving DecidableEq, Repr

/-- `InputDependencySnap(input_name, prev_output_snaps)` from dep_snapshot.py:
all producers feeding one input port. -/
structure InputDependencySnap where
  input_name : String
  prev_output_snaps : List OutputHandleSnap
deriving DecidableEq, Repr

/-- `SolidInvocationSnap(solid_name, solid_def_name, tags, input_dep_snaps)`
from dep_snapshot.py; tags modelled as an ordered association list. -/
structure SolidInvocationSnap where
  solid_name : String
  solid_def_name : String
  tags : List (String × String)
  input_dep_snaps : List InputDependencySnap
deriving DecidableEq, Repr

/-- `DependencyStructureSnapshot(solid_invocation_snaps)` from dep_snapshot.py. -/
structure DependencyStructureSnapshot where
  solid_invocation_snaps : List SolidInvocationSnap
deriving DecidableEq, Repr

/-- Modelled from the spec: failures of the `dagster.check` module (not under
src/) and of a Python dict lookup.  Per the spec these surface to the caller as
invariant-violation style errors: `failed` is `check.failed(msg)`,
`invariantViolation` is a failing `check.invariant(cond)`, and `keyError` is
the dict `KeyError` raised by `self._invocations_dict[solid_name]`. -/
inductive CheckError where
  | failed (msg : String)
  | invariantViolation
  | keyError (key : String)
deriving DecidableEq, Repr

/-! ## Live graph input and the snapshot builder (from dep_snapshot.py) -/

/-- A live output handle `oh` as consumed by the builder: the builder reads
`oh.solid.name` and `oh.output_def.name`. -/
structure OutputHandleObj where
  solid_name : String
  output_name : String
deriving DecidableEq, Repr

/-- A live input handle as consumed by the builder: it reads
`input_handle.input_def.name`. -/
structure InputHandleObj where
  input_name : String
deriving DecidableEq, Repr

/-- A solid of a live graph as consumed by the builder: `solid.name`,
`solid.definition.name` and `solid.tags`. -/
structure SolidObj where
  name : String
  def_name : String
  tags : List (String × String)
deriving DecidableEq, Repr

/-- Modelled from the spec: the `dependency_structure` capability of a live
graph (`dagster/core/definitions`, not under src/).  `wiring s` is, for solid
`s`, the ordered list of (input handle, upstream output handles currently
wired to it) pairs, in port-declaration order; an unwired port has an empty
list of handles. -/
structure DependencyStructureObj where
  wiring : String → List (InputHandleObj × List OutputHandleObj)

/-- A live graph object (`IContainSolids`): its solids in declared iteration
order, and its dependency structure. -/
structure IContainSolids where
  solids : List SolidObj
  dependency_structure : DependencyStructureObj

/-- Modelled from the spec:
`dependency_structure.input_to_upstream_outputs_for_solid(solid_name)` is not
under src/; per the spec it exposes, for each input port that has at least one
upstream producer, the ordered list of output handles wired to it, in
port-declaration order; ports with no producer are absent from the result. -/
def input_to_upstream_outputs_for_solid (ds : DependencyStructureObj)
    (solid_name : String) : List (InputHandleObj × List OutputHandleObj) :=
  (ds.wiring solid_name).filter (fun e => !e.2.isEmpty)

/-- `_upstream_outputs(icontains_solids, solid)` from dep_snapshot.py. -/
def upstream_outputs (g : IContainSolids) (solid : SolidObj) :
    List (InputHandleObj × List OutputHandleObj) :=
  input_to_upstream_outputs_for_solid g.dependency_structure solid.name

/-- `build_dep_structure_snapshot_from_icontains_solids` from dep_snapshot.py:
one `SolidInvocationSnap` per solid in graph iteration order; one
`InputDependencySnap` per entry of `_upstream_outputs`, in that order; each
producer list mapped to `OutputHandleSnap(oh.solid.name, oh.output_def.name)`
in order. -/
def build_dep_structure_snapshot_from_icontains_solids (g : IContainSolids) :
    DependencyStructureSnapshot :=
  { solid_invocation_snaps :=
      g.solids.map (fun solid =>
        { solid_name := solid.name
          solid_def_name := solid.def_name
          tags := solid.tags
          input_dep_snaps :=
            (upstream_outputs g solid).map (fun e =>
              { input_name := e.1.input_name
                prev_output_snaps :=
                  e.2.map (fun oh => OutputHandleSnap.mk oh.solid_name oh.output_name) }) }) }

/-! ## DependencyStructureSnapshotIndex (from dep_snapshot.py) -/

/-- The index: its `_invocations_dict` field, a Python dict built by the
comprehension in `__init__`. -/
structure DependencyStructureSnapshotIndex where
  invocations_dict : String → Option SolidInvocationSnap

/-- `DependencyStructureSnapshotIndex.__init__`: the dict comprehension
`{si.solid_name: si for si in snaps}` — entries are inserted left to right, a
later entry with the same key overwriting the earlier value. -/
def mkIndex (snap : DependencyStructureSnapshot) : DependencyStructureSnapshotIndex :=
  { invocations_dict :=
      snap.solid_invocation_snaps.foldl
        (fun d si => fun k => if k = si.solid_name then some si else d k)
        (fun _ => none) }

/-- `get_invocation(solid_name)`: dict lookup; a missing key raises `KeyError`. -/
def get_invocation (idx : DependencyStructureSnapshotIndex) (solid_name : String) :
    Except CheckError SolidInvocationSnap :=
  match idx.invocations_dict solid_name with
  | some si => Except.ok si
  | none => Except.error (CheckError.keyError solid_name)

/-- `get_upstream_outputs(solid_name, input_name)`: linear scan of the
invocation input dependencies for the first one whose `input_name` matches;
`check.failed` with the formatted message when none does. -/
def get_upstream_outputs (idx : DependencyStructureSnapshotIndex)
    (solid_name input_name : String) : Except CheckError (List OutputHandleSnap) :=
  match get_invocation idx solid_name with
  | Except.error e => Except.error e
  | Except.ok inv =>
    match inv.input_dep_snaps.find? (fun d => d.input_name == input_name) with
    | some d => Except.ok d.prev_output_snaps
    | none =>
      Except.error (CheckError.failed
        ("Input " ++ input_name ++ " not found for solid " ++ solid_name))

/-- `get_upstream_output(solid_name, input_name)`: calls the plural accessor,
asserts `check.invariant(len(outputs) == 1)`, returns `outputs[0]`. -/
def get_upstream_output (idx : DependencyStructureSnapshotIndex)
    (solid_name input_name : String) : Except CheckError OutputHandleSnap :=
  match get_upstream_outputs idx solid_name input_name with
  | Except.error e => Except.error e
  | Except.ok outputs =>
    if outputs.length = 1 then
      match outputs with
      | o :: _ => Except.ok o
      | [] => Except.error CheckError.invariantViolation
    else
      Except.error CheckError.invariantViolation

/-! ## Schedule storage: data model (from sql_schedule_storage.py and the
spec's relational schema) -/

/-- Schedule status enum: `status.value` is stored as a string. -/
inductive ScheduleStatus where
  | RUNNING
  | STOPPED
deriving DecidableEq, Repr

/-- Modelled from the spec: the string `status.value` of a schedule status
(the `Schedule` class is not under src/). -/
def ScheduleStatus.value : ScheduleStatus → String
  | ScheduleStatus.RUNNING => "RUNNING"
  | ScheduleStatus.STOPPED => "STOPPED"

/-- Modelled from the spec: the `Schedule` record (not under src/): a name, a
status, and an opaque remainder of the encoded body (`data`).  The storage
layer reads only `schedule.name` and `schedule.status` and serializes the whole
record as the stored body. -/
structure Schedule where
  name : String
  status : ScheduleStatus
  data : String
deriving DecidableEq, Repr

/-- Tick status enum: `status.value` stored as a string. -/
inductive ScheduleTickStatus where
  | STARTED
  | SUCCESS
  | FAILURE
  | SKIPPED
deriving DecidableEq, Repr

/-- Modelled from the spec: the string `status.value` of a tick status. -/
def ScheduleTickStatus.value : ScheduleTickStatus → String
  | ScheduleTickStatus.STARTED => "STARTED"
  | ScheduleTickStatus.SUCCESS => "SUCCESS"
  | ScheduleTickStatus.FAILURE => "FAILURE"
  | ScheduleTickStatus.SKIPPED => "SKIPPED"

/-- Modelled from the spec: `ScheduleTickData` (not under src/): the
schedule name, status and timestamp of one execution attempt. -/
structure ScheduleTickData where
  schedule_name : String
  status : ScheduleTickStatus
  timestamp : Nat
deriving DecidableEq, Repr

/-- `ScheduleTick(tick_id, schedule_tick_data)`: a tick paired with its
storage-assigned id. -/
structure ScheduleTick where
  tick_id : Nat
  schedule_tick_data : ScheduleTickData
deriving DecidableEq, Repr

/-- Modelled from the spec: `tick.status` delegates to the tick data. -/
def ScheduleTick.status (t : ScheduleTick) : ScheduleTickStatus :=
  t.schedule_tick_data.status

/-- One row of the Schedule table (spec section 6 relational schema).  The
serialization codec is not under src/; per the spec decode reconstructs a
structurally equal value, so `schedule_body` holds the decoded `Schedule`
directly (serialize and deserialize modelled as the identity). -/
structure ScheduleRow where
  repository_name : String
  schedule_name : String
  status : String
  schedule_body : Schedule
deriving DecidableEq, Repr

/-- One row of the Schedule Tick table (spec section 6 relational schema);
`tick_body` holds the decoded `ScheduleTickData` (codec modelled as
identity). -/
structure ScheduleTickRow where
  id : Nat
  repository_name : String
  schedule_name : String
  status : String
  timestamp : Nat
  tick_body : ScheduleTickData
deriving DecidableEq, Repr

/-- The storage state: both tables as lists of rows in insertion order. -/
structure Storage where
  schedule_table : List ScheduleRow
  tick_table : List ScheduleTickRow
deriving DecidableEq, Repr

/-- Errors surfaced by the storage layer to its callers.
`invariantViolation msg` is a `DagsterInvariantViolationError` carrying the
formatted message; `nameError` is the Python `UnboundLocalError` (a kind of
`NameError`) raised when a local variable is read before assignment.  The raw
driver exception `IntegrityError` has no constructor here: it is always caught
and translated before crossing the module boundary. -/
inductive StorageError where
  | invariantViolation (msg : String)
  | nameError
deriving DecidableEq, Repr

/-- The Python exception class a `StorageError` value stands for. -/
def StorageError.pyType : StorageError → String
  | StorageError.invariantViolation _ => "DagsterInvariantViolationError"
  | StorageError.nameError => "UnboundLocalError"

/-- Modelled from the spec: the raw exception of the SQL driver on a
uniqueness-constraint violation (`db.exc.IntegrityError`). -/
inductive SqlError where
  | integrityError
deriving DecidableEq, Repr

/-- Modelled from the spec: `ScheduleTable.insert()` against the schema (not
under src/), whose Schedule table is unique on
`(repository_name, schedule_name)`; an insert that violates the constraint
raises `IntegrityError` and leaves the table unchanged, otherwise the row is
appended. -/
def scheduleTableInsert (table : List ScheduleRow) (row : ScheduleRow) :
    Except SqlError (List ScheduleRow) :=
  if table.any (fun r =>
      r.repository_name == row.repository_name && r.schedule_name == row.schedule_name) then
    Except.error SqlError.integrityError
  else
    Except.ok (table ++ [row])

/-! ## Schedule storage: operations (from sql_schedule_storage.py).
Each mutating operation returns the result or error paired with the storage
state after the call; the `repository` argument is its `repository.name`
(the only field the storage layer reads). -/

/-- `all_schedules(repository=None)`: `base_query` selects every
`schedule_body`; `query` is assigned only inside `if repository:`, so when the
argument is omitted the `self.execute(query)` line reads an unassigned local
and raises `UnboundLocalError`.  With a repository the rows are filtered by
`repository_name` and each body deserialized. -/
def all_schedules (st : Storage) (repository : Option String) :
    Except StorageError (List Schedule) :=
  match repository with
  | some repo =>
    Except.ok
      (((st.schedule_table.filter (fun r => r.repository_name == repo)).map
        (fun r => r.schedule_body)))
  | none => Except.error StorageError.nameError

/-- `get_schedule_by_name(repository, schedule_name)`: first row matching both
columns, deserialized; `None` when there is no row. -/
def get_schedule_by_name (st : Storage) (repository schedule_name : String) :
    Option Schedule :=
  ((st.schedule_table.filter (fun r =>
      r.repository_name == repository && r.schedule_name == schedule_name)).head?).map
    (fun r => r.schedule_body)

/-- `get_schedule_ticks_by_schedule(repository, schedule_name)`: all tick rows
matching both columns, each mapped to `ScheduleTick(id, deserialize(body))`. -/
def get_schedule_ticks_by_schedule (st : Storage) (repository schedule_name : String) :
    List ScheduleTick :=
  (st.tick_table.filter (fun r =>
      r.repository_name == repository && r.schedule_name == schedule_name)).map
    (fun r => ScheduleTick.mk r.id r.tick_body)

/-- `add_schedule(repository, schedule)`: inserts a row built from
`repository.name`, `schedule.name`, `schedule.status.value` and the serialized
schedule; an `IntegrityError` from the driver is caught and re-raised as a
`DagsterInvariantViolationError` saying the schedule is already present. -/
def add_schedule (st : Storage) (repository : String) (schedule : Schedule) :
    Except StorageError Schedule × Storage :=
  match scheduleTableInsert st.schedule_table
      (ScheduleRow.mk repository schedule.name schedule.status.value schedule) with
  | Except.ok table => (Except.ok schedule, { st with schedule_table := table })
  | Except.error SqlError.integrityError =>
    (Except.error (StorageError.invariantViolation
        ("Schedule " ++ schedule.name ++ " for repository " ++ repository ++
          " is already present in storage")),
      st)

/-- `update_schedule(repository, schedule)`: pre-checks existence via
`get_schedule_by_name` and raises a `DagsterInvariantViolationError` saying
the schedule is not present when the check fails; otherwise updates `status`
and `schedule_body` of every row matching `(repository_name, schedule_name)`. -/
def update_schedule (st : Storage) (repository : String) (schedule : Schedule) :
    Except StorageError Unit × Storage :=
  if (get_schedule_by_name st repository schedule.name).isNone then
    (Except.error (StorageError.invariantViolation
        ("Schedule " ++ schedule.name ++ " for repository " ++ repository ++
          " is not present in storage")),
      st)
  else
    (Except.ok (),
      { st with
          schedule_table :=
            st.schedule_table.map (fun r =>
              if r.repository_name == repository && r.schedule_name == schedule.name then
                { r with status := schedule.status.value, schedule_body := schedule }
              else r) })

/-- `delete_schedule(repository, schedule)`: same existence pre-check and
error as `update_schedule`; then deletes every row matching
`(repository_name, schedule_name)`. -/
def delete_schedule (st : Storage) (repository : String) (schedule : Schedule) :
    Except StorageError Unit × Storage :=
  if (get_schedule_by_name st repository schedule.name).isNone then
    (Except.error (StorageError.invariantViolation
        ("Schedule " ++ schedule.name ++ " for repository " ++ repository ++
          " is not present in storage")),
      st)
  else
    (Except.ok (),
      { st with
          schedule_table :=
            st.schedule_table.filter (fun r =>
              !(r.repository_name == repository && r.schedule_name == schedule.name)) })

/-- `update_schedule_tick(repository, tick)`: updates `status` and `tick_body`
of every tick row whose `id` equals `tick.tick_id`; no existence check, no
error when zero rows match; returns the tick. -/
def update_schedule_tick (st : Storage) (repository : String) (tick : ScheduleTick) :
    Except StorageError ScheduleTick × Storage :=
  (Except.ok tick,
    { st with
        tick_table :=
          st.tick_table.map (fun r =>
            if r.id == tick.tick_id then
              { r with
                  status := tick.status.value,
                  tick_body := tick.schedule_tick_data }
            else r) })

/-- `wipe()`: `conn.execute(ScheduleTable.delete())` — deletes every row of
the schedule table; the tick table is not touched. -/
def wipe (st : Storage) : Storage :=
  { st with schedule_table := [] }

/-! ## Concrete fixtures used by witnesses and counterexamples -/

/-- A concrete schedule used in witnesses and counterexamples. -/
def schedC : Schedule :=
  { name := "daily", status := ScheduleStatus.RUNNING, data := "cron" }

/-- A storage holding the row `add_schedule` writes for `schedC` in repository
`repo`, and no ticks. -/
def stOne : Storage :=
  { schedule_table :=
      [{ repository_name := "repo", schedule_name := "daily",
         status := "RUNNING", schedule_body := schedC }],
    tick_table := [] }

/-- The empty storage. -/
def stEmptyC : Storage := { schedule_table := [], tick_table := [] }

/-! ## Claim theorems -/

/-- C1: `all_schedules` with the repository argument omitted never returns the
stored bodies: `query` is assigned only inside `if repository:`, so the
`self.execute(query)` line raises `UnboundLocalError` whatever the stored
state.  The claim (and the spec) say the call returns every stored Schedule
body across all repositories. -/
theorem all_schedules_omitted_repository_raises (st : Storage) :
    all_schedules st none = Except.error StorageError.nameError
    ∧ StorageError.pyType StorageError.nameError = "UnboundLocalError" :=
  ⟨rfl, rfl⟩

/-- C3 counterexample: the "not present" error of `update_schedule` and
`delete_schedule` has the same Python exception type
(`DagsterInvariantViolationError`) as the "already present" conflict error of
`add_schedule` — the two are distinguished only by message, so the claimed
type distinction is false at these concrete inputs. -/
theorem not_present_error_type_equals_conflict_error_type :
    (add_schedule stOne "repo" schedC).1
        = Except.error (StorageError.invariantViolation
            "Schedule daily for repository repo is already present in storage")
    ∧ (update_schedule stEmptyC "repo" schedC).1
        = Except.error (StorageError.invariantViolation
            "Schedule daily for repository repo is not present in storage")
    ∧ (delete_schedule stEmptyC "repo" schedC).1
        = Except.error (StorageError.invariantViolation
            "Schedule daily for repository repo is not present in storage")
    ∧ StorageError.pyType (StorageError.invariantViolation
          "Schedule daily for repository repo is not present in storage")
        = StorageError.pyType (StorageError.invariantViolation
            "Schedule daily for repository repo is already present in storage") := by
  refine ⟨?_, ?_, ?_, rfl⟩ <;> rfl

/-- C3 (amended): `update_schedule` and `delete_schedule` on an absent
`(repository_name, name)` fail with a `DagsterInvariantViolationError` whose
message says the schedule is not present — the same exception type as the
conflict error of `add_schedule`, distinguished only by its message — and
leave the store unchanged. -/
theorem update_delete_absent_fail_not_present (st : Storage) (repository : String)
    (schedule : Schedule)
    (h : get_schedule_by_name st repository schedule.name = none) :
    update_schedule st repository schedule
        = (Except.error (StorageError.invariantViolation
            ("Schedule " ++ schedule.name ++ " for repository " ++ repository ++
              " is not present in storage")), st)
    ∧ delete_schedule st repository schedule
        = (Except.error (StorageError.invariantViolation
            ("Schedule " ++ schedule.name ++ " for repository " ++ repository ++
              " is not present in storage")), st) := by
  constructor <;> simp [update_schedule, delete_schedule, h]

/-- C3 witness: the amended statement at the empty storage. -/
theorem update_delete_absent_fail_not_present_witness :
    get_schedule_by_name stEmptyC "repo" schedC.name = none
    ∧ (update_schedule stEmptyC "repo" schedC
        = (Except.error (StorageError.invariantViolation
            ("Schedule " ++ schedC.name ++ " for repository " ++ "repo" ++
              " is not present in storage")), stEmptyC)
      ∧ delete_schedule stEmptyC "repo" schedC
        = (Except.error (StorageError.invariantViolation
            ("Schedule " ++ schedC.name ++ " for repository " ++ "repo" ++
              " is not present in storage")), stEmptyC)) :=
  ⟨rfl, update_delete_absent_fail_not_present stEmptyC "repo" schedC rfl⟩

/-- C8: `wipe()` empties the schedule table and leaves the tick table
untouched, so tick retrieval is unchanged and a per-repository `all_schedules`
query returns nothing; but the claimed observation `all_schedules()` with the
repository omitted raises `UnboundLocalError` (the C1 slip) instead of
returning an empty collection. -/
theorem wipe_scope_and_all_schedules_bug (st : Storage)
    (repository schedule_name : String) :
    (wipe st).schedule_table = []
    ∧ (wipe st).tick_table = st.tick_table
    ∧ get_schedule_ticks_by_schedule (wipe st) repository schedule_name
        = get_schedule_ticks_by_schedule st repository schedule_name
    ∧ all_schedules (wipe st) (some repository) = Except.ok []
    ∧ all_schedules (wipe st) none = Except.error StorageError.nameError :=
  ⟨rfl, rfl, rfl, rfl, rfl⟩

/-- C9: `update_schedule_tick` always returns the tick without error; it
rewrites exactly the tick rows whose `id` equals `tick.tick_id` (status and
body), touches nothing else, and when no row has that id the storage is
unchanged — a silent no-op, not a surfaced failure. -/
theorem update_schedule_tick_no_existence_check (st : Storage)
    (repository : String) (tick : ScheduleTick) :
    (update_schedule_tick st repository tick).1 = Except.ok tick
    ∧ (update_schedule_tick st repository tick).2.schedule_table = st.schedule_table
    ∧ (update_schedule_tick st repository tick).2.tick_table
        = st.tick_table.map (fun r =>
            if r.id == tick.tick_id then
              { r with status := tick.status.value, tick_body := tick.schedule_tick_data }
            else r)
    ∧ ((∀ r ∈ st.tick_table, r.id ≠ tick.tick_id) →
        (update_schedule_tick st repository tick).2 = st) := by
  refine ⟨rfl, rfl, rfl, ?_⟩
  intro h
  cases st with
  | mk sched ticks =>
    simp only [update_schedule_tick]
    congr 1
    induction ticks with
    | nil => rfl
    | cons r t ih =>
      have hr : ¬ (r.id == tick.tick_id) = true := by
        simp [h r (by simp)]
      simp only [List.map_cons, if_neg hr, List.cons.injEq, true_and]
      exact ih (fun x hx => h x (by simp [hx]))

/-- C2: after a successful `add_schedule`, adding the same schedule to the
same repository again fails with the translated domain conflict error — a
`DagsterInvariantViolationError` saying the schedule is already present, never
the driver's raw `IntegrityError` (which `StorageError` cannot even express) —
and the storage, including the pre-existing row, is unchanged by the failed
attempt. -/
theorem add_schedule_twice_conflict (st : Storage) (repository : String)
    (schedule : Schedule) (st' : Storage)
    (h : add_schedule st repository schedule = (Except.ok schedule, st')) :
    (add_schedule st' repository schedule).1
        = Except.error (StorageError.invariantViolation
            ("Schedule " ++ schedule.name ++ " for repository " ++ repository ++
              " is already present in storage"))
    ∧ (add_schedule st' repository schedule).2 = st'
    ∧ ScheduleRow.mk repository schedule.name schedule.status.value schedule
        ∈ st'.schedule_table := by
  by_cases hany : st.schedule_table.any (fun r =>
      r.repository_name == repository && r.schedule_name == schedule.name) = true
  · exfalso
    simp [add_schedule, scheduleTableInsert, hany] at h
  · have hst' : st' =
        { st with
            schedule_table := st.schedule_table ++
              [ScheduleRow.mk repository schedule.name schedule.status.value schedule] } := by
      have h2 := congrArg Prod.snd h
      simp [add_schedule, scheduleTableInsert, hany] at h2
      exact h2.symm
    have hmem : ScheduleRow.mk repository schedule.name schedule.status.value schedule
        ∈ st'.schedule_table := by
      rw [hst']
      simp
    have hany2 : st'.schedule_table.any (fun r =>
        r.repository_name == repository && r.schedule_name == schedule.name) = true := by
      rw [List.any_eq_true]
      exact ⟨ScheduleRow.mk repository schedule.name schedule.status.value schedule,
        hmem, by simp⟩
    refine ⟨?_, ?_, hmem⟩ <;>
      simp [add_schedule, scheduleTableInsert, hany2]

/-- C2 witness: adding `schedC` to the empty storage succeeds and produces
`stOne`; the second identical add fails with the already-present conflict
error and leaves `stOne` unchanged. -/
theorem add_schedule_twice_conflict_witness :
    add_schedule stEmptyC "repo" schedC = (Except.ok schedC, stOne)
    ∧ ((add_schedule stOne "repo" schedC).1
        = Except.error (StorageError.invariantViolation
            ("Schedule " ++ schedC.name ++ " for repository " ++ "repo" ++
              " is already present in storage"))
      ∧ (add_schedule stOne "repo" schedC).2 = stOne
      ∧ ScheduleRow.mk "repo" schedC.name schedC.status.value schedC
          ∈ stOne.schedule_table) :=
  ⟨rfl, add_schedule_twice_conflict stEmptyC "repo" schedC stOne rfl⟩

/-- When the plural accessor succeeds with `outputs`, the singular accessor is
the `check.invariant` on `len(outputs) == 1` followed by `outputs[0]`. -/
theorem get_upstream_output_eq (idx : DependencyStructureSnapshotIndex)
    (solid_name input_name : String) (outputs : List OutputHandleSnap)
    (h : get_upstream_outputs idx solid_name input_name = Except.ok outputs) :
    get_upstream_output idx solid_name input_name
      = if outputs.length = 1 then
          match outputs with
          | o :: _ => Except.ok o
          | [] => Except.error CheckError.invariantViolation
        else Except.error CheckError.invariantViolation := by
  unfold get_upstream_output
  rw [h]

/-- C4: when an input is recorded with producer list `outputs`,
`get_upstream_output` succeeds and returns the single recorded handle exactly
when `outputs` has exactly one element, and fails with the invariant-violation
error when zero or two or more are recorded. -/
theorem get_upstream_output_single_producer (snaps : List SolidInvocationSnap)
    (solid_name input_name : String) (outputs : List OutputHandleSnap)
    (h : get_upstream_outputs (mkIndex (DependencyStructureSnapshot.mk snaps))
        solid_name input_name = Except.ok outputs) :
    (∀ o, get_upstream_output (mkIndex (DependencyStructureSnapshot.mk snaps))
          solid_name input_name = Except.ok o
        ↔ outputs = [o])
    ∧ (outputs.length ≠ 1 →
        get_upstream_output (mkIndex (DependencyStructureSnapshot.mk snaps))
            solid_name input_name
          = Except.error CheckError.invariantViolation) := by
  have he := get_upstream_output_eq _ _ _ _ h
  rcases outputs with _ | ⟨x, _ | ⟨y, t⟩⟩
  · simp only [List.length_nil] at he
    refine ⟨fun o => ?_, fun _ => by simpa using he⟩
    rw [he]
    simp
  · simp only [List.length_cons, List.length_nil] at he
    refine ⟨fun o => ?_, fun hl => by simp at hl⟩
    rw [he]
    simp
  · simp only [List.length_cons] at he
    refine ⟨fun o => ?_, fun _ => by simpa using he⟩
    rw [he]
    simp

/-- A concrete invocation whose only input has a single producer; it is also
the invocation the builder produces for solid `b` of the witness graph. -/
def invSingle : SolidInvocationSnap :=
  { solid_name := "b", solid_def_name := "bdef", tags := [],
    input_dep_snaps :=
      [{ input_name := "in1",
         prev_output_snaps := [OutputHandleSnap.mk "a" "result"] }] }

/-- C4 witness: the single-producer accessor at a concrete snapshot. -/
theorem get_upstream_output_single_producer_witness :
    get_upstream_outputs (mkIndex (DependencyStructureSnapshot.mk [invSingle]))
        "b" "in1" = Except.ok [OutputHandleSnap.mk "a" "result"]
    ∧ ((∀ o, get_upstream_output (mkIndex (DependencyStructureSnapshot.mk [invSingle]))
            "b" "in1" = Except.ok o
          ↔ [OutputHandleSnap.mk "a" "result"] = [o])
      ∧ ([OutputHandleSnap.mk "a" "result"].length ≠ 1 →
          get_upstream_output (mkIndex (DependencyStructureSnapshot.mk [invSingle]))
              "b" "in1"
            = Except.error CheckError.invariantViolation)) :=
  ⟨rfl, get_upstream_output_single_producer [invSingle] "b" "in1"
      [OutputHandleSnap.mk "a" "result"] rfl⟩

/-- C5: on an invocation found in the index, `get_upstream_outputs` returns
the full recorded producer list of the first input dependency whose name
matches (in particular all N handles of a fan-in input, in recorded order),
and fails with the check error saying the input was not found when no input
dependency of that name is present. -/
theorem get_upstream_outputs_fan_in (snaps : List SolidInvocationSnap)
    (solid_name input_name : String) (inv : SolidInvocationSnap)
    (h : get_invocation (mkIndex (DependencyStructureSnapshot.mk snaps)) solid_name
        = Except.ok inv) :
    (∀ d, inv.input_dep_snaps.find? (fun x => x.input_name == input_name) = some d →
        get_upstream_outputs (mkIndex (DependencyStructureSnapshot.mk snaps))
            solid_name input_name
          = Except.ok d.prev_output_snaps)
    ∧ ((∀ d ∈ inv.input_dep_snaps, d.input_name ≠ input_name) →
        get_upstream_outputs (mkIndex (DependencyStructureSnapshot.mk snaps))
            solid_name input_name
          = Except.error (CheckError.failed
              ("Input " ++ input_name ++ " not found for solid " ++ solid_name))) := by
  constructor
  · intro d hd
    simp only [get_upstream_outputs, h, hd]
  · intro hnone
    have hfind : inv.input_dep_snaps.find? (fun x => x.input_name == input_name)
        = none := by
      rw [List.find?_eq_none]
      intro x hx
      simpa using hnone x hx
    simp only [get_upstream_outputs, h, hfind]

/-- A concrete invocation with a fan-in input fed by two producers. -/
def invFan : SolidInvocationSnap :=
  { solid_name := "c", solid_def_name := "cdef", tags := [],
    input_dep_snaps :=
      [{ input_name := "nums",
         prev_output_snaps := [OutputHandleSnap.mk "a" "out",
                               OutputHandleSnap.mk "b" "out"] }] }

/-- C5 witness: a fan-in input with two recorded producers returns both, in
recorded order. -/
theorem get_upstream_outputs_fan_in_witness :
    get_invocation (mkIndex (DependencyStructureSnapshot.mk [invFan])) "c"
        = Except.ok invFan
    ∧ get_upstream_outputs (mkIndex (DependencyStructureSnapshot.mk [invFan]))
        "c" "nums"
        = Except.ok [OutputHandleSnap.mk "a" "out", OutputHandleSnap.mk "b" "out"] :=
  ⟨rfl, (get_upstream_outputs_fan_in [invFan] "c" "nums" invFan rfl).1
      (InputDependencySnap.mk "nums"
        [OutputHandleSnap.mk "a" "out", OutputHandleSnap.mk "b" "out"]) rfl⟩

/-- Mapping a function over a list is pointwise related to the list. -/
theorem forall₂_map_self {α β : Type} (l : List α) (f : α → β) (P : β → α → Prop)
    (h : ∀ x ∈ l, P (f x) x) : List.Forall₂ P (l.map f) l := by
  induction l with
  | nil => exact List.Forall₂.nil
  | cons a t ih =>
    exact List.Forall₂.cons (h a (by simp)) (ih (fun x hx => h x (by simp [hx])))

/-- C6: the builder is a pure function of the live graph — two calls on the
same unchanged graph yield structurally equal snapshots — with one invocation
per solid in the graph's declared iteration order and, invocation by
invocation, the input dependencies in the order supplied by the graph's
dependency structure. -/
theorem build_dep_structure_snapshot_deterministic (g₁ g₂ : IContainSolids)
    (h : g₁ = g₂) :
    build_dep_structure_snapshot_from_icontains_solids g₁
        = build_dep_structure_snapshot_from_icontains_solids g₂
    ∧ (build_dep_structure_snapshot_from_icontains_solids g₁).solid_invocation_snaps.map
        SolidInvocationSnap.solid_name = g₁.solids.map SolidObj.name
    ∧ List.Forall₂
        (fun inv solid =>
          inv.input_dep_snaps.map InputDependencySnap.input_name
            = (upstream_outputs g₁ solid).map (fun e => e.1.input_name))
        (build_dep_structure_snapshot_from_icontains_solids g₁).solid_invocation_snaps
        g₁.solids := by
  subst h
  refine ⟨rfl, ?_, ?_⟩
  · rw [build_dep_structure_snapshot_from_icontains_solids, List.map_map]
    rfl
  · apply forall₂_map_self
    intro s hs
    rw [List.map_map]
    rfl

/-- The dependency structure of the witness graph: solid `b` has one input
`in1` wired to output `result` of solid `a`; everything else is unwired. -/
def dsW : DependencyStructureObj :=
  { wiring := fun n =>
      if n = "b" then
        [(InputHandleObj.mk "in1", [OutputHandleObj.mk "a" "result"])]
      else [] }

/-- The witness graph: solids `a` and `b` with the wiring of `dsW`. -/
def gW : IContainSolids :=
  { solids := [SolidObj.mk "a" "adef" [], SolidObj.mk "b" "bdef" []],
    dependency_structure := dsW }

/-- C6 witness: the determinism and ordering statement at the witness graph. -/
theorem build_dep_structure_snapshot_deterministic_witness :
    build_dep_structure_snapshot_from_icontains_solids gW
        = build_dep_structure_snapshot_from_icontains_solids gW
    ∧ (build_dep_structure_snapshot_from_icontains_solids gW).solid_invocation_snaps.map
        SolidInvocationSnap.solid_name = gW.solids.map SolidObj.name
    ∧ List.Forall₂
        (fun inv solid =>
          inv.input_dep_snaps.map InputDependencySnap.input_name
            = (upstream_outputs gW solid).map (fun e => e.1.input_name))
        (build_dep_structure_snapshot_from_icontains_solids gW).solid_invocation_snaps
        gW.solids :=
  build_dep_structure_snapshot_deterministic gW gW rfl

/-- C7: every input dependency present in a built snapshot has at least one
recorded producer — the modelled graph capability omits unwired ports, and the
builder maps producer lists one to one, so no empty producer list is ever
emitted. -/
theorem build_input_dependencies_nonempty (g : IContainSolids)
    (inv : SolidInvocationSnap)
    (hinv : inv ∈ (build_dep_structure_snapshot_from_icontains_solids g).solid_invocation_snaps)
    (d : InputDependencySnap) (hd : d ∈ inv.input_dep_snaps) :
    1 ≤ d.prev_output_snaps.length := by
  simp only [build_dep_structure_snapshot_from_icontains_solids, List.mem_map] at hinv
  obtain ⟨s, hs, rfl⟩ := hinv
  simp only [List.mem_map] at hd
  obtain ⟨e, he, rfl⟩ := hd
  simp only [upstream_outputs, input_to_upstream_outputs_for_solid] at he
  have hne := List.of_mem_filter he
  simp only [List.length_map]
  rw [Nat.succ_le, List.length_pos]
  intro hnil
  rw [hnil] at hne
  simp at hne

/-- C7 witness: the input dependency the builder emits for solid `b` of the
witness graph has one producer. -/
theorem build_input_dependencies_nonempty_witness :
    invSingle ∈ (build_dep_structure_snapshot_from_icontains_solids gW).solid_invocation_snaps
    ∧ InputDependencySnap.mk "in1" [OutputHandleSnap.mk "a" "result"]
        ∈ invSingle.input_dep_snaps
    ∧ 1 ≤ (InputDependencySnap.mk "in1"
        [OutputHandleSnap.mk "a" "result"]).prev_output_snaps.length :=
  ⟨by decide, by decide,
    build_input_dependencies_nonempty gW invSingle (by decide)
      (InputDependencySnap.mk "in1" [OutputHandleSnap.mk "a" "result"]) (by decide)⟩

/-- The dict built by the index comprehension, applied to a key, is the last
entry of the snapshot list with that key (first of the reversed list), falling
back to the initial dict. -/
theorem mkIndex_foldl_apply (snaps : List SolidInvocationSnap)
    (init : String → Option SolidInvocationSnap) (k : String) :
    (snaps.foldl (fun d si => fun j => if j = si.solid_name then some si else d j) init) k
      = ((snaps.reverse.find? (fun si => si.solid_name == k)).or (init k)) := by
  induction snaps generalizing init with
  | nil => simp
  | cons si rest ih =>
    rw [List.foldl_cons, ih, List.reverse_cons, List.find?_append]
    cases hf : rest.reverse.find? (fun x => x.solid_name == k) with
    | some x => simp
    | none =>
      by_cases hk : k = si.solid_name
      · simp [hk, List.find?]
      · have hks : ¬ (si.solid_name == k) = true := by
          simp only [beq_iff_eq]
          exact fun e => hk e.symm
        simp [List.find?, hks, hk]

/-- C10: building the index over a snapshot whose invocation names repeat is a
total operation — the dict comprehension silently lets a later invocation
overwrite an earlier one with the same `solid_name` — and `get_invocation`
returns the invocation appearing last in the snapshot list (the first match of
the reversed list). -/
theorem get_invocation_last_duplicate_wins (snaps : List SolidInvocationSnap)
    (solid_name : String) (si : SolidInvocationSnap)
    (h : snaps.reverse.find? (fun x => x.solid_name == solid_name) = some si) :
    get_invocation (mkIndex (DependencyStructureSnapshot.mk snaps)) solid_name
      = Except.ok si := by
  have happ := mkIndex_foldl_apply snaps (fun _ => none) solid_name
  rw [h] at happ
  simp only [Option.or] at happ
  simp only [get_invocation, mkIndex, happ]

/-- First of two invocations sharing the name `dup`. -/
def invDup1 : SolidInvocationSnap :=
  { solid_name := "dup", solid_def_name := "d1", tags := [], input_dep_snaps := [] }

/-- Second of two invocations sharing the name `dup`. -/
def invDup2 : SolidInvocationSnap :=
  { solid_name := "dup", solid_def_name := "d2", tags := [], input_dep_snaps := [] }

/-- C10 witness: with two invocations named `dup`, the index is built without
error and `get_invocation` returns the later one. -/
theorem get_invocation_last_duplicate_wins_witness :
    [invDup1, invDup2].reverse.find? (fun x => x.solid_name == "dup") = some invDup2
    ∧ get_invocation (mkIndex (DependencyStructureSnapshot.mk [invDup1, invDup2])) "dup"
        = Except.ok invDup2 :=
  ⟨rfl, get_invocation_last_duplicate_wins [invDup1, invDup2] "dup" invDup2 rfl⟩
